import Mathlib

/-!
Verification development for the hass-rs WebSocket client library.

The embedding models the connection/correlation engine of the repository:
the facade in `src/client.rs` (HassClient), the reader loop in
`src/wsconn.rs` (receiver_loop), and the sequence allocator
(`get_last_seq`, identical in both files).  Channel sends are modelled as
always-succeeding appends (a tokio mpsc send fails only when the receiver
half is dropped), the inbound channel/stream is modelled as a list of
frames consumed from the front, and JSON (de)serialization of the typed
payload shapes is kept abstract: a frame carries the outcome of the serde
parse, and a successful typed payload is carried as an opaque `Json`
value, matching the spec's scoping of payload shapes as external
collaborators.  Rust `u64` arithmetic is `Nat` reduced modulo `2 ^ 64`
where the source wraps; Rust panics (`expect`, `unwrap`, `todo!`) are an
explicit `panicked` outcome.
-/

namespace HassRs

/-- Modulus of Rust `u64` arithmetic (`AtomicU64::fetch_add` wraps). -/
def u64Mod : Nat := 2 ^ 64

/-- Opaque JSON value used for pass-through payloads (`serde_json::Value`).
The typed decoding of payloads (HassConfig etc.) is an external
collaborator per the spec and is not interpreted here. -/
inductive Json where
  | null
  | bool (b : Bool)
  | num (n : Int)
  | str (s : String)
  | arr (elems : List Json)
  | obj (fields : List (String × Json))

/-- Modelled from the spec: the `{code, message}` error object of a
`result` frame (src/types/response.rs is not under src/; the shape is
fixed by spec section 6 and by the field accesses in src/errors.rs). -/
structure ErrorDetails where
  code : String
  message : String

/-- Modelled from the spec: the body of a `result` response frame
(`{"id":N,"type":"result","success":bool,"result":<json>?,"error":{...}?}`),
matching the field accesses `.id`, `.success`, `.result`, `.error` in
src/client.rs and src/errors.rs. -/
structure WSResult where
  id : Nat
  success : Bool
  result : Option Json
  error : Option ErrorDetails

/-- Modelled from the spec: an `event` response frame
(`{"id":N,"type":"event","event":<json>}` where N is the subscription
identifier), matching the `.id` access in src/wsconn.rs. -/
structure WSEvent where
  id : Nat
  event : Json

/-- Modelled from the spec: the inbound frame discriminated union
(spec section 3, "Response"), with the variant payloads used by
src/client.rs and src/wsconn.rs. -/
inductive Response where
  | authRequired (msg_type : String)
  | authOk
  | authInvalid (message : String)
  | pong (id : Nat)
  | result (r : WSResult)
  | event (e : WSEvent)

/-- Modelled from the spec: the `Ask` command body (`{"id":N,"type":...}`). -/
structure Ask where
  id : Option Nat
  msg_type : String

/-- Modelled from the spec: the `auth` command body
(`{"type":"auth","access_token":...}`). -/
structure Auth where
  msg_type : String
  access_token : String

/-- Modelled from the spec: the `subscribe_events` command body. -/
structure Subscribe where
  id : Option Nat
  msg_type : String
  event_type : String

/-- Modelled from the spec: the `unsubscribe_events` command body. -/
structure Unsubscribe where
  id : Option Nat
  msg_type : String
  subscription : Nat

/-- Modelled from the spec: the `call_service` command body. -/
structure CallService where
  id : Option Nat
  msg_type : String
  domain : String
  service : String
  service_data : Option Json

/-- Modelled from the spec: the outbound command discriminated union,
with the variants dispatched on in src/wsconn.rs `sender_loop`. -/
inductive Command where
  | authInit (auth : Auth)
  | ping (ask : Ask)
  | subscribeEvent (sub : Subscribe)
  | unsubscribe (unsub : Unsubscribe)
  | getConfig (ask : Ask)
  | getStates (ask : Ask)
  | getServices (ask : Ask)
  | getPanels (ask : Ask)
  | callService (cs : CallService)
  | close

/-- The error enum of src/errors.rs (`HassError`); error payloads that the
model does not inspect (serde errors, tungstenite errors) are carried as
strings. -/
inductive HassError where
  | authenticationFailed (message : String)
  | unableToDeserialize (err : String)
  | connectionClosed
  | sendError (message : String)
  | tungsteniteError (message : String)
  | unknownPayloadReceived
  | reponseError (result : WSResult)
  | generic (detail : String)

/-- Outcome of a facade operation: `ok`, a returned `HassError`, or a Rust
panic (`expect` / `unwrap` / `todo!`). -/
inductive OpOut (α : Type) where
  | ok (value : α)
  | fail (e : HassError)
  | panicked (message : String)

/-- Identifier carried by an outbound command (the `id` field of its body). -/
def cmd_id : Command → Option Nat
  | .authInit _ => none
  | .ping a => a.id
  | .subscribeEvent s => s.id
  | .unsubscribe u => u.id
  | .getConfig a => a.id
  | .getStates a => a.id
  | .getServices a => a.id
  | .getPanels a => a.id
  | .callService cs => cs.id
  | .close => none

/-- Identifier carried by an inbound response frame. -/
def resp_id : Response → Option Nat
  | .pong i => some i
  | .result r => some r.id
  | .event e => some e.id
  | _ => none

/-- The sequence allocator of src/client.rs lines 541-547 and
src/wsconn.rs lines 75-81: `fetch_add(1, Relaxed)` on an `AtomicU64`
returns the previous value (wrapping), and a previous value of `0` is
mapped to `None`.  State is the current `u64` register value, reduced
modulo `2 ^ 64`. -/
def get_last_seq (last_sequence : Nat) : Option Nat × Nat :=
  (if last_sequence % u64Mod = 0 then none else some (last_sequence % u64Mod),
   (last_sequence % u64Mod + 1) % u64Mod)

/-- Allocator register after `n` calls, starting from the initial value
`1` set by `HassClient::new` and `WsConn::connect`. -/
def seq_state : Nat → Nat
  | 0 => 1
  | n + 1 => (get_last_seq (seq_state n)).2

/-- Identifier handed out by call number `n` (0-indexed) of the allocator. -/
def seq_id (n : Nat) : Option Nat := (get_last_seq (seq_state n)).1

/-- An item received on the client's inbound channel
(`from_gateway: Receiver<Result<TungsteniteMessage, Error>>`): a text
frame carrying its serde parse outcome, a non-text frame, or a
transport-level error already converted by `HassError::from`. -/
inductive FrameIn where
  | text (parsed : Except String Response)
  | nonText
  | recvErr (e : HassError)

/-- `HassClient::ws_receive` (src/client.rs lines 467-511, tokio branch):
take the next item off the inbound channel; a parse failure becomes
`UnableToDeserialize`, a non-text frame `UnknownPayloadReceived`, a
transport error is forwarded, and a closed channel (`None`) yields
`UnknownPayloadReceived`.  No identifier is inspected. -/
def ws_receive : List FrameIn → Except HassError Response × List FrameIn
  | [] => (.error .unknownPayloadReceived, [])
  | .text (.ok r) :: rest => (.ok r, rest)
  | .text (.error msg) :: rest => (.error (.unableToDeserialize msg), rest)
  | .nonText :: rest => (.error .unknownPayloadReceived, rest)
  | .recvErr e :: rest => (.error e, rest)

/-- `HassClient::command` (src/client.rs lines 446-464): serialize and
send the command, then return whatever `ws_receive` produces next.  The
third component records the frames sent; the channel send is modelled as
succeeding. -/
def command (cmd : Command) (inbox : List FrameIn) :
    Except HassError Response × List FrameIn × List Command :=
  let r := ws_receive inbox
  (r.1, r.2, [cmd])

/-- Second half of `HassClient::auth_with_longlivedtoken`: build the
`auth` command, send it via `command`, and match the reply
(`AuthOk` / `AuthInvalid` / anything else). -/
def auth_send_token (token : String) (inbox : List FrameIn) :
    Except HassError Unit × List FrameIn × List Command :=
  let auth_message := Command.authInit { msg_type := "auth", access_token := token }
  let r := ws_receive inbox
  match r.1 with
  | .error e => (.error e, r.2, [auth_message])
  | .ok .authOk => (.ok (), r.2, [auth_message])
  | .ok (.authInvalid m) => (.error (.authenticationFailed m), r.2, [auth_message])
  | .ok _ => (.error .unknownPayloadReceived, r.2, [auth_message])

/-- `HassClient::auth_with_longlivedtoken` (src/client.rs lines 59-83).
The source reads the first frame with
`if let Ok(Response::AuthRequired(msg)) = self.ws_receive().await`:
only a successfully parsed `auth_required` frame enters the guard (whose
inner msg_type check can then only fail for a disagreeing tag); every
other first frame, including errors, falls through to sending the token. -/
def auth_with_longlivedtoken (token : String) (inbox : List FrameIn) :
    Except HassError Unit × List FrameIn × List Command :=
  let r1 := ws_receive inbox
  match r1.1 with
  | .ok (.authRequired mt) =>
      if mt = "auth_required" then auth_send_token token r1.2
      else (.error (.generic "Expecting the first message from server to be auth_required"),
            r1.2, [])
  | _ => auth_send_token token r1.2

/-- State of a `HassClient` (src/client.rs lines 22-34): the sequence
register and the subscriptions map, the latter as an association list
with `HashMap` insert/remove semantics. -/
structure Client where
  last_sequence : Nat
  subscriptions : List (Nat × String)

/-- `HashMap::insert`: replace the binding if the key is present,
otherwise append it. -/
def insert_sub : List (Nat × String) → Nat → String → List (Nat × String)
  | [], k, v => [(k, v)]
  | (k0, v0) :: rest, k, v =>
      if k0 = k then (k, v) :: rest else (k0, v0) :: insert_sub rest k v

/-- `HashMap::get`: first binding of the key, if any. -/
def lookup_sub : List (Nat × String) → Nat → Option String
  | [], _ => none
  | (k0, v0) :: rest, k => if k0 = k then some v0 else lookup_sub rest k

/-- `HashMap::remove`: drop the first binding of the key and return its
value, if any. -/
def remove_sub : List (Nat × String) → Nat → Option String × List (Nat × String)
  | [], _ => (none, [])
  | (k0, v0) :: rest, k =>
      if k0 = k then (some v0, rest)
      else
        let t := remove_sub rest k
        (t.1, (k0, v0) :: t.2)

/-- Response handling of `HassClient::ping` (src/client.rs lines 100-104):
a `Pong` succeeds, ANY `Result` frame becomes `ReponseError` (the
`success` flag is not consulted), anything else `UnknownPayloadReceived`. -/
def ping_decode : Response → OpOut String
  | .pong _ => .ok "pong"
  | .result r => .fail (.reponseError r)
  | _ => .fail .unknownPayloadReceived

/-- Response handling of `HassClient::get_config` (src/client.rs lines
121-132): a successful `Result` hands its payload to the external
`HassConfig` decoder (the payload is returned as-is here), a missing
payload panics via `expect`, `success == false` becomes `ReponseError`,
and any other tag `UnknownPayloadReceived`. -/
def get_config_decode : Response → OpOut Json
  | .result r =>
      if r.success then
        match r.result with
        | some v => .ok v
        | none => .panicked "Expecting to get the HassConfig"
      else .fail (.reponseError r)
  | _ => .fail .unknownPayloadReceived

/-- Response handling of `HassClient::call_service` (src/client.rs lines
373-379). -/
def call_service_decode : Response → OpOut String
  | .result r =>
      if r.success then .ok "command executed successfully"
      else .fail (.reponseError r)
  | _ => .fail .unknownPayloadReceived

/-- The `{code, message}` pair reported by a failed operation, when its
failure is the gateway-error variant. -/
def error_pair_of {α : Type} : OpOut α → Option (String × String)
  | .fail (.reponseError r) => r.error.map (fun d => (d.code, d.message))
  | _ => none

/-- `HassClient::get_config` (src/client.rs lines 111-133): allocate an
identifier (`expect` panics on `None`), send `{"id":N,"type":"get_config"}`,
receive the next frame (a channel error propagates via `?`), and decode. -/
def get_config (c : Client) (inbox : List FrameIn) :
    OpOut Json × Client × List FrameIn × List Command :=
  match get_last_seq c.last_sequence with
  | (none, s2) =>
      (.panicked "could not read the Atomic value",
       { c with last_sequence := s2 }, inbox, [])
  | (some id, s2) =>
      let config_req := Command.getConfig { id := some id, msg_type := "get_config" }
      let r := ws_receive inbox
      let c2 : Client := { c with last_sequence := s2 }
      match r.1 with
      | .error e => (.fail e, c2, r.2, [config_req])
      | .ok resp => (get_config_decode resp, c2, r.2, [config_req])

/-- `HassClient::subscribe_event` (src/client.rs lines 390-412): allocate
an identifier, send `subscribe_events`, `unwrap` the reply (a channel
error panics), and on `result{success=true}` insert
`(reply.id, event_name)` into the subscriptions map and return the
`WSResult` to the caller. -/
def subscribe_event (c : Client) (event_name : String) (inbox : List FrameIn) :
    OpOut WSResult × Client × List FrameIn × List Command :=
  match get_last_seq c.last_sequence with
  | (none, s2) =>
      (.panicked "could not read the Atomic value",
       { c with last_sequence := s2 }, inbox, [])
  | (some id, s2) =>
      let cmd := Command.subscribeEvent
        { id := some id, msg_type := "subscribe_events", event_type := event_name }
      let r := ws_receive inbox
      let c2 : Client := { c with last_sequence := s2 }
      match r.1 with
      | .error _ => (.panicked "called unwrap on an Err value", c2, r.2, [cmd])
      | .ok (.result v) =>
          if v.success then
            (.ok v,
             { c2 with subscriptions := insert_sub c2.subscriptions v.id event_name },
             r.2, [cmd])
          else (.fail (.reponseError v), c2, r.2, [cmd])
      | .ok _ => (.fail .unknownPayloadReceived, c2, r.2, [cmd])

/-- `HassClient::unsubscribe_event` (src/client.rs lines 419-443):
allocate an identifier, send `unsubscribe_events` referencing
`subscription_id`, `unwrap` the reply, and on `result{success=true}`
remove `subscription_id` from the subscriptions map; a miss yields
`Generic "Wrong subscription ID"`. -/
def unsubscribe_event (c : Client) (subscription_id : Nat) (inbox : List FrameIn) :
    OpOut String × Client × List FrameIn × List Command :=
  match get_last_seq c.last_sequence with
  | (none, s2) =>
      (.panicked "could not read the Atomic value",
       { c with last_sequence := s2 }, inbox, [])
  | (some id, s2) =>
      let unsubscribe_req := Command.unsubscribe
        { id := some id, msg_type := "unsubscribe_events", subscription := subscription_id }
      let r := ws_receive inbox
      let c2 : Client := { c with last_sequence := s2 }
      match r.1 with
      | .error _ => (.panicked "called unwrap on an Err value", c2, r.2, [unsubscribe_req])
      | .ok (.result v) =>
          if v.success then
            let rm := remove_sub c2.subscriptions subscription_id
            match rm.1 with
            | some _ => (.ok "Ok", { c2 with subscriptions := rm.2 }, r.2, [unsubscribe_req])
            | none =>
                (.fail (.generic "Wrong subscription ID"),
                 { c2 with subscriptions := rm.2 }, r.2, [unsubscribe_req])
          else (.fail (.reponseError v), c2, r.2, [unsubscribe_req])
      | .ok _ => (.fail .unknownPayloadReceived, c2, r.2, [unsubscribe_req])

/-- `HassClient::get_area_registry` (src/client.rs lines 159-177), request
construction: the command is built with the literal `Some(0)`, without
consulting the allocator, so the client state is returned unchanged. -/
def get_area_registry_request (c : Client) : Command × Client :=
  (Command.getConfig { id := some 0, msg_type := "config/area_registry/list" }, c)

/-- `HassClient::get_device_registry` (src/client.rs lines 203-221),
request construction. -/
def get_device_registry_request (c : Client) : Command × Client :=
  (Command.getConfig { id := some 0, msg_type := "config/device_registry/list" }, c)

/-- `HassClient::get_entity_registry` (src/client.rs lines 247-265),
request construction. -/
def get_entity_registry_request (c : Client) : Command × Client :=
  (Command.getConfig { id := some 0, msg_type := "config/entity_registry/list" }, c)

/-- An item produced by the WebSocket stream consumed by
`receiver_loop` in src/wsconn.rs: a text frame with its parse outcome
(the source discards the serde error via
`map_err(|_| HassError::UnknownPayloadReceived)`, so only success or
failure is carried), a non-text frame, or a stream error. -/
inductive StreamItem where
  | text (parsed : Option Response)
  | nonText
  | streamErr (e : HassError)

/-- Effects of one iteration of `receiver_loop` (src/wsconn.rs lines
214-256): the values sent on the `to_client` channel, the event (if any)
handed to a subscriber's closure, and the panic message if the iteration
panicked. -/
structure StepResult where
  sent_to_client : List (Except HassError Response)
  delivered : Option WSEvent
  panicked : Option String

/-- One iteration of `receiver_loop`.  `listeners` is the key set of the
`event_listeners` map.  An event whose id is registered is handed to the
closure; an event whose id is unknown hits `todo!("send unsubscribe
request")`, which panics; every other parsed frame, and a parse failure,
is forwarded to `to_client`; non-text frames and stream errors follow the
source's `_ => {}` and send-and-ignore arms. -/
def receiver_loop_step (listeners : List Nat) : StreamItem → StepResult
  | .text (some (.event e)) =>
      if listeners.contains e.id then
        { sent_to_client := [], delivered := some e, panicked := none }
      else
        { sent_to_client := [], delivered := none,
          panicked := some "not yet implemented: send unsubscribe request" }
  | .text (some v) =>
      { sent_to_client := [.ok v], delivered := none, panicked := none }
  | .text none =>
      { sent_to_client := [.error .unknownPayloadReceived], delivered := none,
        panicked := none }
  | .nonText => { sent_to_client := [], delivered := none, panicked := none }
  | .streamErr e =>
      { sent_to_client := [.error e], delivered := none, panicked := none }

/-- Run `receiver_loop` over a finite prefix of the stream, accumulating
the values sent to the client, the events delivered to subscribers, and
stopping at the first panic (a panicked task processes no further
frames). -/
def receiver_loop_run (listeners : List Nat) :
    List StreamItem → List (Except HassError Response) × List WSEvent × Option String
  | [] => ([], [], none)
  | item :: rest =>
      let r := receiver_loop_step listeners item
      match r.panicked with
      | some m => (r.sent_to_client, r.delivered.toList, some m)
      | none =>
          let t := receiver_loop_run listeners rest
          (r.sent_to_client ++ t.1, r.delivered.toList ++ t.2.1, t.2.2)

theorem u64Mod_eq : u64Mod = 18446744073709551616 := by norm_num [u64Mod]

theorem lookup_insert_sub (l : List (Nat × String)) (k : Nat) (v : String) :
    lookup_sub (insert_sub l k v) k = some v := by
  induction l with
  | nil => simp [insert_sub, lookup_sub]
  | cons hd tl ih =>
      obtain ⟨k0, v0⟩ := hd
      by_cases h : k0 = k
      · simp [insert_sub, lookup_sub, h]
      · simp [insert_sub, lookup_sub, h, ih]

theorem remove_sub_of_lookup_none (l : List (Nat × String)) (k : Nat)
    (h : lookup_sub l k = none) : remove_sub l k = (none, l) := by
  induction l with
  | nil => simp [remove_sub]
  | cons hd tl ih =>
      obtain ⟨k0, v0⟩ := hd
      by_cases hk : k0 = k
      · simp [lookup_sub, hk] at h
      · simp only [lookup_sub, hk, if_neg, ite_false] at h
        simp [remove_sub, hk, ih h]

theorem seq_state_eq (n : Nat) : seq_state n = (n + 1) % u64Mod := by
  induction n with
  | zero =>
      simp only [seq_state, Nat.zero_add]
      rw [u64Mod_eq]
  | succ n ih =>
      simp only [seq_state, get_last_seq, ih]
      rw [u64Mod_eq] at *
      omega

theorem seq_id_eq (n : Nat) (h : n + 1 < u64Mod) : seq_id n = some (n + 1) := by
  have h1 : (n + 1) % u64Mod = n + 1 := Nat.mod_eq_of_lt h
  simp [seq_id, get_last_seq, seq_state_eq, h1]

/-- C3: identifiers handed out by successive calls to the sequence
allocator are strictly increasing (call `j` hands out `j + 1`, call `k`
with `j < k` hands out the strictly larger `k + 1`, so no identifier is
ever handed out twice below the `u64` wrap), and no call, wrapped or not,
ever hands out the reserved identifier `0`. -/
theorem seq_ids_strictly_increasing_and_nonzero (j k n : Nat) (hjk : j < k)
    (hk : k + 1 < u64Mod) :
    seq_id j = some (j + 1) ∧ seq_id k = some (k + 1) ∧ j + 1 < k + 1 ∧
    seq_id n ≠ some 0 := by
  have hj : j + 1 < u64Mod := lt_trans (by omega) hk
  refine ⟨seq_id_eq j hj, seq_id_eq k hk, by omega, ?_⟩
  by_cases h : seq_state n % u64Mod = 0 <;> simp [seq_id, get_last_seq, h]

/-- Witness for C3 at calls 0 and 1 (and call 5 for the no-zero part). -/
theorem seq_ids_witness :
    seq_id 0 = some 1 ∧ seq_id 1 = some 2 ∧ 0 + 1 < 1 + 1 ∧ seq_id 5 ≠ some 0 :=
  seq_ids_strictly_increasing_and_nonzero 0 1 5 (by norm_num)
    (by rw [u64Mod_eq]; norm_num)

/-- C9: a text frame that fails to deserialize makes `receiver_loop`
deliver exactly one local error value to the client channel and continue
with the remaining frames: the outputs of the rest of the run are
unchanged and the loop does not stop. -/
theorem deserialize_failure_nonfatal (listeners : List Nat) (items : List StreamItem) :
    receiver_loop_run listeners (.text none :: items)
      = (.error .unknownPayloadReceived :: (receiver_loop_run listeners items).1,
         (receiver_loop_run listeners items).2.1,
         (receiver_loop_run listeners items).2.2) := by
  simp [receiver_loop_run, receiver_loop_step]

/-- C10: the three registry getters build their command with the literal
identifier `Some(0)` — the reserved no-correlation value — leaving the
client (and thus the sequence register) untouched, all three sharing
identifier `0`; the allocator itself can never produce `some 0`. -/
theorem registry_requests_use_literal_zero (c : Client) (t : Nat) :
    cmd_id (get_area_registry_request c).1 = some 0 ∧
    cmd_id (get_device_registry_request c).1 = some 0 ∧
    cmd_id (get_entity_registry_request c).1 = some 0 ∧
    (get_area_registry_request c).2 = c ∧
    (get_device_registry_request c).2 = c ∧
    (get_entity_registry_request c).2 = c ∧
    (get_last_seq t).1 ≠ some 0 := by
  refine ⟨rfl, rfl, rfl, rfl, rfl, rfl, ?_⟩
  by_cases h : t % u64Mod = 0 <;> simp [get_last_seq, h]

/-- C2 counterexample: an event frame whose subscription id 42 is not in
the (empty) listener table makes `receiver_loop` panic on the
`todo!("send unsubscribe request")` placeholder — nothing is delivered,
and the following (malformed) frame is never processed: the loop has
terminated, refuting "it neither terminates nor panics". -/
theorem unrouted_event_panics_cex :
    receiver_loop_run [] [.text (some (.event ⟨42, Json.null⟩)), .text none]
      = ([], [], some "not yet implemented: send unsubscribe request") := rfl

/-- C2 amended: an inbound event whose subscription identifier is not in
the Subscription Table is delivered to no sink, but instead of being
dropped it panics the reader loop (`todo!`), terminating it and skipping
all subsequent frames. -/
theorem unrouted_event_panics (listeners : List Nat) (e : WSEvent)
    (items : List StreamItem) (h : listeners.contains e.id = false) :
    receiver_loop_run listeners (.text (some (.event e)) :: items)
      = ([], [], some "not yet implemented: send unsubscribe request") := by
  have h2 : e.id ∉ listeners := by simpa using h
  simp [receiver_loop_run, receiver_loop_step, h2]

/-- Witness for C2's amended theorem: subscription id 7 against listener
table `[3]`. -/
theorem unrouted_event_panics_witness :
    ([3] : List Nat).contains (7 : Nat) = false ∧
    receiver_loop_run [3] [.text (some (.event ⟨7, Json.null⟩))]
      = ([], [], some "not yet implemented: send unsubscribe request") :=
  ⟨by decide, unrouted_event_panics [3] ⟨7, Json.null⟩ [] (by decide)⟩

/-- C1 counterexample: `HassClient::command` performs no identifier
matching — a result frame carrying identifier 7, arriving while the
`get_config` command assigned identifier 5 is pending, is delivered to
that caller, refuting "delivered to (and only to) the caller whose
outbound command was assigned identifier N". -/
theorem response_id_ignored_cex :
    (command (Command.getConfig { id := some 5, msg_type := "get_config" })
        [FrameIn.text (.ok (.result { id := 7, success := true, result := none, error := none }))]).1
      = .ok (.result { id := 7, success := true, result := none, error := none }) ∧
    cmd_id (Command.getConfig { id := some 5, msg_type := "get_config" }) = some 5 ∧
    resp_id (.result { id := 7, success := true, result := none, error := none }) = some 7 ∧
    (7 : Nat) ≠ 5 :=
  ⟨rfl, rfl, rfl, by norm_num⟩

/-- C1 amended: the facade delivers the next inbound frame to the single
in-flight call, whatever identifier it carries; because every facade
method holds the client exclusively, at most one request is pending, so a
result frame with id 5 arriving while the `get_config` request with id 5
is pending does resolve that call to the config payload (handed to the
external decoder), with no other pending request in existence. -/
theorem next_frame_delivery (cmd : Command) (r : Response) (rest : List FrameIn)
    (payload : Json) :
    (command cmd (.text (.ok r) :: rest)).1 = .ok r ∧
    get_config { last_sequence := 5, subscriptions := [] }
        [.text (.ok (.result { id := 5, success := true, result := some payload, error := none }))]
      = (.ok payload, { last_sequence := 6, subscriptions := [] }, [],
         [Command.getConfig { id := some 5, msg_type := "get_config" }]) := by
  constructor
  · rfl
  · have h5 : (5 : Nat) % u64Mod = 5 := by rw [u64Mod_eq]
    have h6 : (5 + 1 : Nat) % u64Mod = 6 := by rw [u64Mod_eq]
    simp [get_config, get_last_seq, h5, h6, ws_receive, get_config_decode]

/-- C4: the authentication handshake does not fail on an unexpected first
message — a first frame that is not `auth_required` (here a `pong`) falls
through the `if let` guard, the token is sent anyway, and the handshake
completes as if on track, contradicting the claim that `authenticate`
fails rather than proceeding. -/
theorem auth_skips_unexpected_first_message (token : String) (rest : List FrameIn) :
    auth_with_longlivedtoken token
        (.text (.ok (.pong 1)) :: .text (.ok .authOk) :: rest)
      = (.ok (), rest, [Command.authInit { msg_type := "auth", access_token := token }]) := rfl

/-- C5: given `auth_required` followed by `auth_invalid` with message
"bad token", `authenticate` fails with `AuthenticationFailed "bad token"`
and the only frame the client ever sent is the single `auth` command — no
further command frames follow the failure. -/
theorem auth_invalid_fails (token : String) (rest : List FrameIn) :
    auth_with_longlivedtoken token
        (.text (.ok (.authRequired "auth_required"))
          :: .text (.ok (.authInvalid "bad token")) :: rest)
      = (.error (.authenticationFailed "bad token"), rest,
         [Command.authInit { msg_type := "auth", access_token := token }]) := by
  simp [auth_with_longlivedtoken, ws_receive, auth_send_token]

/-- C6: `unsubscribe_event` with an identifier absent from the
subscriptions map (the gateway having acknowledged the unsubscribe
command with `result{success=true}`) returns the distinct
`Generic "Wrong subscription ID"` error — the source's realization of the
unknown-subscription error — and leaves the subscriptions map unchanged. -/
theorem unsubscribe_unknown_id (c : Client) (sid : Nat) (v : WSResult)
    (rest : List FrameIn) (hseq : c.last_sequence % u64Mod ≠ 0)
    (hv : v.success = true) (hmiss : lookup_sub c.subscriptions sid = none) :
    (unsubscribe_event c sid (.text (.ok (.result v)) :: rest)).1
      = .fail (.generic "Wrong subscription ID") ∧
    (unsubscribe_event c sid (.text (.ok (.result v)) :: rest)).2.1.subscriptions
      = c.subscriptions := by
  have hrm := remove_sub_of_lookup_none c.subscriptions sid hmiss
  constructor <;> simp [unsubscribe_event, get_last_seq, hseq, ws_receive, hv, hrm]

/-- Witness for C6: register 1, table `[(3, "state_changed")]`, unknown
id 99, gateway ack with id 5. -/
theorem unsubscribe_unknown_id_witness :
    ((1 : Nat) % u64Mod ≠ 0) ∧
    (unsubscribe_event ⟨1, [(3, "state_changed")]⟩ 99
        (.text (.ok (.result ⟨5, true, none, none⟩)) :: [])).1
      = .fail (.generic "Wrong subscription ID") ∧
    (unsubscribe_event ⟨1, [(3, "state_changed")]⟩ 99
        (.text (.ok (.result ⟨5, true, none, none⟩)) :: [])).2.1.subscriptions
      = [(3, "state_changed")] :=
  ⟨by rw [u64Mod_eq]; norm_num,
   unsubscribe_unknown_id ⟨1, [(3, "state_changed")]⟩ 99 ⟨5, true, none, none⟩ []
     (by rw [u64Mod_eq]; norm_num) rfl rfl⟩

/-- C7: `subscribe_event` whose gateway reply is `result{success=true}`
records the pair `(reply.id, event_name)` in the subscriptions map (the
identifier now looks up the event type) and returns the reply — carrying
that identifier — to the caller as the subscription handle. -/
theorem subscribe_records_subscription (c : Client) (event_name : String)
    (v : WSResult) (rest : List FrameIn) (hseq : c.last_sequence % u64Mod ≠ 0)
    (hv : v.success = true) :
    (subscribe_event c event_name (.text (.ok (.result v)) :: rest)).1 = .ok v ∧
    lookup_sub
        (subscribe_event c event_name (.text (.ok (.result v)) :: rest)).2.1.subscriptions
        v.id
      = some event_name := by
  constructor <;>
    simp [subscribe_event, get_last_seq, hseq, ws_receive, hv, lookup_insert_sub]

/-- Witness for C7: register 1, empty table, event type "state_changed",
gateway ack with id 2. -/
theorem subscribe_records_subscription_witness :
    ((1 : Nat) % u64Mod ≠ 0) ∧
    (subscribe_event ⟨1, []⟩ "state_changed"
        (.text (.ok (.result ⟨2, true, none, none⟩)) :: [])).1
      = .ok ⟨2, true, none, none⟩ ∧
    lookup_sub
        (subscribe_event ⟨1, []⟩ "state_changed"
          (.text (.ok (.result ⟨2, true, none, none⟩)) :: [])).2.1.subscriptions
        (WSResult.mk 2 true none none).id
      = some "state_changed" :=
  ⟨by rw [u64Mod_eq]; norm_num,
   subscribe_records_subscription ⟨1, []⟩ "state_changed" ⟨2, true, none, none⟩ []
     (by rw [u64Mod_eq]; norm_num) rfl⟩

/-- C8 counterexample: a `result` frame (success = true) received where a
`pong` was expected makes `ping` fail with the gateway-error variant
`ReponseError`, not with the distinct unexpected-payload error, refuting
the claim's unexpected-tag half at its own example. -/
theorem ping_result_not_unexpected_cex :
    ping_decode (.result { id := 3, success := true, result := none, error := none })
      = .fail (.reponseError { id := 3, success := true, result := none, error := none }) ∧
    ping_decode (.result { id := 3, success := true, result := none, error := none })
      ≠ .fail .unknownPayloadReceived := by
  constructor
  · rfl
  · intro h
    simp [ping_decode] at h

/-- C8 amended: a well-formed `result{success:false, error:{code,message}}`
fails `call_service`, `get_config` and `ping` with the gateway-error
variant carrying exactly that `{code, message}` pair, and a structurally
valid reply of a tag that is neither `result` nor the expected one (an
`event` here) fails with the distinct unexpected-payload error — except
that for `ping`, ANY `result` reply, successful or not, fails with the
gateway-error variant rather than the unexpected-payload error. -/
theorem gateway_error_and_unexpected_tag (r w : WSResult) (e : WSEvent)
    (cd msg : String) (hr : r.success = false)
    (hre : r.error = some { code := cd, message := msg }) :
    call_service_decode (.result r) = .fail (.reponseError r) ∧
    get_config_decode (.result r) = .fail (.reponseError r) ∧
    ping_decode (.result r) = .fail (.reponseError r) ∧
    error_pair_of (call_service_decode (.result r)) = some (cd, msg) ∧
    call_service_decode (.event e) = .fail .unknownPayloadReceived ∧
    get_config_decode (.event e) = .fail .unknownPayloadReceived ∧
    ping_decode (.event e) = .fail .unknownPayloadReceived ∧
    ping_decode (.result w) = .fail (.reponseError w) := by
  refine ⟨?_, ?_, rfl, ?_, rfl, rfl, rfl, rfl⟩
  · simp [call_service_decode, hr]
  · simp [get_config_decode, hr]
  · simp [call_service_decode, hr, error_pair_of, hre]

/-- Witness for C8's amended theorem: a failed `result` carrying
`{code: "not_found", message: "service missing"}`, a successful `result`,
and an `event` frame. -/
theorem gateway_error_and_unexpected_tag_witness :
    ((WSResult.mk 4 false none (some ⟨"not_found", "service missing"⟩)).success = false) ∧
    call_service_decode (.result ⟨4, false, none, some ⟨"not_found", "service missing"⟩⟩)
      = .fail (.reponseError ⟨4, false, none, some ⟨"not_found", "service missing"⟩⟩) ∧
    error_pair_of
        (call_service_decode (.result ⟨4, false, none, some ⟨"not_found", "service missing"⟩⟩))
      = some ("not_found", "service missing") ∧
    ping_decode (.event ⟨9, Json.null⟩) = .fail .unknownPayloadReceived ∧
    ping_decode (.result ⟨4, true, none, none⟩)
      = .fail (.reponseError ⟨4, true, none, none⟩) :=
  ⟨rfl,
   (gateway_error_and_unexpected_tag ⟨4, false, none, some ⟨"not_found", "service missing"⟩⟩
      ⟨4, true, none, none⟩ ⟨9, Json.null⟩ "not_found" "service missing" rfl rfl).1,
   (gateway_error_and_unexpected_tag ⟨4, false, none, some ⟨"not_found", "service missing"⟩⟩
      ⟨4, true, none, none⟩ ⟨9, Json.null⟩ "not_found" "service missing" rfl rfl).2.2.2.1,
   (gateway_error_and_unexpected_tag ⟨4, false, none, some ⟨"not_found", "service missing"⟩⟩
      ⟨4, true, none, none⟩ ⟨9, Json.null⟩ "not_found" "service missing" rfl rfl).2.2.2.2.2.2.1,
   (gateway_error_and_unexpected_tag ⟨4, false, none, some ⟨"not_found", "service missing"⟩⟩
      ⟨4, true, none, none⟩ ⟨9, Json.null⟩ "not_found" "service missing" rfl rfl).2.2.2.2.2.2.2⟩

end HassRs
